import Mathlib

/-!
Shallow embedding of the IDTP frame codec (`src/rust/idtp`): header codec,
frame builder, `pack_with`, `validate_with`, `TryFrom<&[u8]>` decode, and the
payload `from_bytes` capability.  Machine integers are modelled as `Nat`
(bytes are `Nat` values `< 256`; the Rust types guarantee the bounds, which
appear here as `WF` hypotheses).  Byte buffers are `List Nat`; the in-place
mutation of `&mut [u8]` buffers is modelled by state passing: an operation on
a buffer returns the new buffer contents together with its `Result`.
-/

namespace Idtp

/-- Protocol errors enumeration (`IdtpError` in `lib.rs`). -/
inductive IdtpError where
  | BufferUnderflow
  | BufferOverflow
  | InvalidCrc
  | InvalidHMac
  | InvalidHMacKey
  | ParseError
deriving DecidableEq

instance {ε α : Type} [DecidableEq ε] [DecidableEq α] :
    DecidableEq (Except ε α) := fun a b =>
  match a, b with
  | .error e, .error e' =>
    if h : e = e' then .isTrue (by rw [h]) else
      .isFalse (fun hc => h (Except.error.injEq _ _ ▸ hc))
  | .error _, .ok _ => .isFalse (fun hc => Except.noConfusion hc)
  | .ok _, .error _ => .isFalse (fun hc => Except.noConfusion hc)
  | .ok v, .ok v' =>
    if h : v = v' then .isTrue (by rw [h]) else
      .isFalse (fun hc => h (Except.ok.injEq _ _ ▸ hc))

/-- IDTP operating mode (`IdtpMode` in `header.rs`). -/
inductive Mode where
  | Lite
  | Safety
  | Secure
  | Unknown
deriving DecidableEq

/-- `From<u8> for IdtpMode`: `0x00 => Lite, 0x01 => Safety, 0x02 => Secure,
`_ => Unknown`. -/
def Mode.ofByte (b : Nat) : Mode :=
  if b = 0x00 then .Lite
  else if b = 0x01 then .Safety
  else if b = 0x02 then .Secure
  else .Unknown

/-- `slice.get(..n)` on a byte slice: `Some` of the first `n` elements iff
`n ≤ length`. -/
def getFirstN (l : List Nat) (n : Nat) : Option (List Nat) :=
  if n ≤ l.length then some (l.take n) else none

/-- `slice.get_mut(..v.len()).copy_from_slice(v)`: overwrite the first
`v.length` elements, `Some` iff the slice is long enough. -/
def setFirstN (l : List Nat) (v : List Nat) : Option (List Nat) :=
  if v.length ≤ l.length then some (v ++ l.drop v.length) else none

/-- `slice.get(a..b)`: `Some` of elements `a..b` iff `a ≤ b ≤ length`. -/
def listGetRange (l : List Nat) (a b : Nat) : Option (List Nat) :=
  if a ≤ b ∧ b ≤ l.length then some ((l.drop a).take (b - a)) else none

/-- `slice.get_mut(a..b).copy_from_slice(v)`: overwrite elements `a..b` with
`v`.  `get_mut` yields `Some` iff `a ≤ b ≤ length`; `copy_from_slice` requires
`v.length = b - a` (in the Rust source this equality always holds by the types
and lengths involved). -/
def listSetRange (l : List Nat) (a b : Nat) (v : List Nat) :
    Option (List Nat) :=
  if a ≤ b ∧ b ≤ l.length ∧ v.length = b - a then
    some (l.take a ++ v ++ l.drop b)
  else none

/-- `*slice.get_mut(i) = v`: set a single element, `Some` iff `i < length`. -/
def listSetIdx (l : List Nat) (i : Nat) (v : Nat) : Option (List Nat) :=
  if i < l.length then some (l.set i v) else none

/-- `u32::to_le_bytes` (on a `Nat`, truncating like the `u32` cast). -/
def u32le (x : Nat) : List Nat :=
  [x % 256, x / 256 % 256, x / 65536 % 256, x / 16777216 % 256]

/-- `u32::from_le_bytes` on four bytes. -/
def u32fromLE (b0 b1 b2 b3 : Nat) : Nat :=
  b0 + 256 * b1 + 65536 * b2 + 16777216 * b3

/-- `IDTP_PREAMBLE`: value to signal the start of a new IDTP frame. -/
def IDTP_PREAMBLE : Nat := 0x50544449

/-- `IDTP_VERSION`: current IDTP version byte. -/
def IDTP_VERSION : Nat := 0x21

/-- `IDTP_HEADER_SIZE`: size of the packed `IdtpHeader` in bytes. -/
def IDTP_HEADER_SIZE : Nat := 20

/-- `IDTP_FRAME_MAX_SIZE`: IDTP frame max size in bytes. -/
def IDTP_FRAME_MAX_SIZE : Nat := 1024

/-- `IDTP_PAYLOAD_MAX_SIZE`: IDTP network packet payload max size in bytes. -/
def IDTP_PAYLOAD_MAX_SIZE : Nat := 972

/-- IDTP header struct (`header.rs`), `repr(C, packed)`, little-endian on the
wire.  Field order matches the source. -/
structure IdtpHeader where
  preamble : Nat
  timestamp : Nat
  sequence : Nat
  device_id : Nat
  payload_size : Nat
  version : Nat
  mode : Nat
  payload_type : Nat
  crc : Nat
deriving DecidableEq

/-- Field bounds guaranteed by the Rust field types (`u32`/`u16`/`u8`).  The
`crc` byte is not constrained: it round-trips through the byte image
verbatim. -/
def IdtpHeader.WF (h : IdtpHeader) : Prop :=
  h.preamble < 4294967296 ∧ h.timestamp < 4294967296 ∧
  h.sequence < 4294967296 ∧ h.device_id < 65536 ∧ h.payload_size < 65536 ∧
  h.version < 256 ∧ h.mode < 256 ∧ h.payload_type < 256

instance (h : IdtpHeader) : Decidable h.WF := by
  unfold IdtpHeader.WF; infer_instance

/-- Derived `Default for IdtpHeader`: every field zero. -/
def IdtpHeader.default : IdtpHeader :=
  { preamble := 0, timestamp := 0, sequence := 0, device_id := 0,
    payload_size := 0, version := 0, mode := 0, payload_type := 0, crc := 0 }

/-- `IdtpHeader::new()`: preamble and version set, remaining fields from
`Default::default()`. -/
def IdtpHeader.new : IdtpHeader :=
  { IdtpHeader.default with preamble := IDTP_PREAMBLE, version := IDTP_VERSION }

/-- `zerocopy::IntoBytes::as_bytes` on the packed header: the 20-byte
little-endian image, fields in declaration order. -/
def IdtpHeader.asBytes (h : IdtpHeader) : List Nat :=
  [h.preamble % 256, h.preamble / 256 % 256, h.preamble / 65536 % 256,
   h.preamble / 16777216 % 256,
   h.timestamp % 256, h.timestamp / 256 % 256, h.timestamp / 65536 % 256,
   h.timestamp / 16777216 % 256,
   h.sequence % 256, h.sequence / 256 % 256, h.sequence / 65536 % 256,
   h.sequence / 16777216 % 256,
   h.device_id % 256, h.device_id / 256 % 256,
   h.payload_size % 256, h.payload_size / 256 % 256,
   h.version, h.mode, h.payload_type, h.crc]

/-- `zerocopy::FromBytes::read_from_prefix` for `IdtpHeader`: succeeds iff the
buffer holds at least 20 bytes, reading the little-endian fields from the
first 20. -/
def IdtpHeader.readFrom (buffer : List Nat) : Option IdtpHeader :=
  match buffer with
  | b0 :: b1 :: b2 :: b3 :: b4 :: b5 :: b6 :: b7 :: b8 :: b9 :: b10 :: b11 ::
    b12 :: b13 :: b14 :: b15 :: b16 :: b17 :: b18 :: b19 :: _ =>
    some { preamble := b0 + 256 * b1 + 65536 * b2 + 16777216 * b3,
           timestamp := b4 + 256 * b5 + 65536 * b6 + 16777216 * b7,
           sequence := b8 + 256 * b9 + 65536 * b10 + 16777216 * b11,
           device_id := b12 + 256 * b13,
           payload_size := b14 + 256 * b15,
           version := b16, mode := b17, payload_type := b18, crc := b19 }
  | _ => none

/-- IDTP frame struct (`frame.rs`): a header and a fixed 972-byte payload
backing array.  The array length is an invariant of all reachable states,
carried as a hypothesis where needed. -/
structure IdtpFrame where
  header : IdtpHeader
  payload : List Nat
deriving DecidableEq

namespace IdtpFrame

/-- `Default for IdtpFrame` / `IdtpFrame::new()`: default header, zeroed
payload array. -/
def new : IdtpFrame :=
  { header := IdtpHeader.default, payload := List.replicate 972 0 }

/-- `IdtpFrame::set_header`. -/
def set_header (f : IdtpFrame) (header : IdtpHeader) : IdtpFrame :=
  { f with header := header }

/-- `IdtpFrame::set_payload_raw`.  Returns the post-call frame state together
with the `Result`; on every error path the source returns before mutating, so
the state component is the input frame. -/
def set_payload_raw (f : IdtpFrame) (bytes : List Nat) (payload_type : Nat) :
    IdtpFrame × Except IdtpError Unit :=
  let size := bytes.length
  if size > IDTP_FRAME_MAX_SIZE then (f, .error .BufferOverflow)
  else
    match setFirstN f.payload bytes with
    | none => (f, .error .BufferOverflow)
    | some p =>
      let h2 :=
        { f.header with payload_type := payload_type,
                        payload_size := size % 65536 }
      ({ header := h2, payload := p }, .ok ())

/-- `IdtpFrame::set_payload<T>`: the typed payload is abstracted to its
`TYPE_ID` and its `to_bytes()` byte view. -/
def set_payload (f : IdtpFrame) (type_id : Nat) (bytes : List Nat) :
    IdtpFrame × Except IdtpError Unit :=
  let size := bytes.length
  if size > IDTP_PAYLOAD_MAX_SIZE then (f, .error .BufferOverflow)
  else
    match setFirstN f.payload bytes with
    | none => (f, .error .BufferOverflow)
    | some p =>
      let h2 :=
        { f.header with payload_type := type_id,
                        payload_size := size % 65536 }
      ({ header := h2, payload := p }, .ok ())

/-- `IdtpFrame::payload_size()`: the header field as `usize`. -/
def payload_size (f : IdtpFrame) : Nat := f.header.payload_size

/-- `IdtpFrame::payload_raw()`. -/
def payload_raw (f : IdtpFrame) : Except IdtpError (List Nat) :=
  match getFirstN f.payload f.payload_size with
  | none => .error .ParseError
  | some payload_bytes => .ok payload_bytes

/-- `IdtpFrame::trailer_size()`. -/
def trailer_size (f : IdtpFrame) : Nat :=
  match Mode.ofByte f.header.mode with
  | .Safety => 4
  | .Secure => 32
  | .Lite | .Unknown => 0

/-- `IdtpFrame::size()`: `IDTP_FRAME_MIN_SIZE + payload_size + trailer_size`
(`IDTP_FRAME_MIN_SIZE = IDTP_HEADER_SIZE = 20`). -/
def size (f : IdtpFrame) : Nat :=
  IDTP_HEADER_SIZE + f.payload_size + f.trailer_size

/-- `IdtpPayload::from_bytes` for a fixed-layout payload type of byte size
`sz` (the standard registry types derive it via `zerocopy`, whose
`read_from_prefix` on a packed `FromBytes` type succeeds exactly when the
input holds at least `sz` bytes and reads the first `sz`). -/
def payloadFromBytes (sz : Nat) (data : List Nat) :
    Except IdtpError (List Nat) :=
  if data.length < sz then .error .BufferUnderflow
  else
    match getFirstN data sz with
    | none => .error .ParseError
    | some p => .ok p

/-- `IdtpFrame::payload::<T>()` for a payload type of byte size `sz`. -/
def payloadT (f : IdtpFrame) (sz : Nat) : Except IdtpError (List Nat) :=
  match getFirstN f.payload f.payload_size with
  | none => .error .ParseError
  | some payload_bytes =>
    match payloadFromBytes sz payload_bytes with
    | .error _ => .error .ParseError
    | .ok p => .ok p

/-- `IdtpFrame::pack_with`.  The mutable output buffer is threaded through:
the result is the post-call buffer contents paired with the returned
`Result`. -/
def pack_with (f : IdtpFrame) (buffer : List Nat)
    (calc_crc8 : List Nat → Except IdtpError Nat)
    (calc_crc32 : List Nat → Except IdtpError Nat)
    (calc_hmac : List Nat → Except IdtpError (List Nat)) :
    List Nat × Except IdtpError Nat :=
  let trailer_size := f.trailer_size
  let expected_size := f.size
  if buffer.length < expected_size then (buffer, .error .BufferUnderflow)
  else
    -- Packing IDTP header & calculating the CRC-8.
    match listSetRange buffer 0 IDTP_HEADER_SIZE f.header.asBytes with
    | none => (buffer, .error .BufferUnderflow)
    | some buf1 =>
      match listGetRange buf1 0 19 with
      | none => (buf1, .error .BufferUnderflow)
      | some data =>
        match calc_crc8 data with
        | .error e => (buf1, .error e)
        | .ok crc8 =>
          match listSetIdx buf1 19 crc8 with
          | none => (buf1, .error .BufferUnderflow)
          | some buf2 =>
            -- Packing payload.
            let payload_size := f.payload_size
            match f.payload_raw with
            | .error e => (buf2, .error e)
            | .ok payload =>
              match listSetRange buf2 IDTP_HEADER_SIZE
                  (IDTP_HEADER_SIZE + payload_size) payload with
              | none => (buf2, .error .BufferUnderflow)
              | some buf3 =>
                -- Packing frame trailer.
                let data_size := IDTP_HEADER_SIZE + payload_size
                let mode := Mode.ofByte f.header.mode
                let frame_size := data_size + trailer_size
                match listGetRange buf3 0 data_size with
                | none => (buf3, .error .BufferUnderflow)
                | some data2 =>
                  match mode with
                  | .Safety =>
                    match calc_crc32 data2 with
                    | .error e => (buf3, .error e)
                    | .ok crc32 =>
                      match listSetRange buf3 data_size frame_size
                          (u32le crc32) with
                      | none => (buf3, .error .BufferUnderflow)
                      | some buf4 => (buf4, .ok frame_size)
                  | .Secure =>
                    match calc_hmac data2 with
                    | .error e => (buf3, .error e)
                    | .ok hmac =>
                      match listSetRange buf3 data_size frame_size hmac with
                      | none => (buf3, .error .BufferUnderflow)
                      | some buf4 => (buf4, .ok frame_size)
                  | .Lite | .Unknown => (buf3, .ok frame_size)

/-- `IdtpFrame::validate_with` (read-only; no state threading needed). -/
def validate_with (buffer : List Nat)
    (calc_crc8 : List Nat → Except IdtpError Nat)
    (calc_crc32 : List Nat → Except IdtpError Nat)
    (calc_hmac : List Nat → Except IdtpError (List Nat)) :
    Except IdtpError Unit :=
  if buffer.length < IDTP_HEADER_SIZE then .error .BufferUnderflow
  else
    -- Checking CRC-8 of IDTP header.
    match buffer[19]? with
    | none => .error .BufferUnderflow
    | some received_crc8 =>
      match listGetRange buffer 0 19 with
      | none => .error .BufferUnderflow
      | some data =>
        match calc_crc8 data with
        | .error e => .error e
        | .ok computed_crc8 =>
          if received_crc8 ≠ computed_crc8 then .error .InvalidCrc
          else
            -- Checking size.
            match IdtpHeader.readFrom buffer with
            | none => .error .ParseError
            | some header =>
              let payload_size := header.payload_size
              let mode := Mode.ofByte header.mode
              let trailer_size :=
                match mode with
                | .Safety => 4
                | .Secure => 32
                | .Lite | .Unknown => 0
              let data_size := IDTP_HEADER_SIZE + payload_size
              let expected_size := data_size + trailer_size
              if buffer.length < expected_size then .error .BufferUnderflow
              else
                let frame_size := data_size + trailer_size
                match listGetRange buffer 0 data_size with
                | none => .error .BufferUnderflow
                | some data2 =>
                  -- Checking frame trailer.
                  match mode with
                  | .Lite => .ok ()
                  | .Safety =>
                    match calc_crc32 data2 with
                    | .error e => .error e
                    | .ok computed_crc32 =>
                      match listGetRange buffer data_size frame_size with
                      | none => .error .BufferUnderflow
                      | some tr =>
                        match tr with
                        | [b0, b1, b2, b3] =>
                          if computed_crc32 ≠ u32fromLE b0 b1 b2 b3 then
                            .error .InvalidCrc
                          else .ok ()
                        | _ => .error .ParseError
                  | .Secure =>
                    match calc_hmac data2 with
                    | .error e => .error e
                    | .ok computed_hmac =>
                      match listGetRange buffer data_size frame_size with
                      | none => .error .BufferUnderflow
                      | some received_hmac =>
                        if computed_hmac ≠ received_hmac then
                          .error .InvalidHMac
                        else .ok ()
                  | .Unknown => .error .InvalidCrc

/-- `TryFrom<&[u8]> for IdtpFrame` (decode). -/
def try_from (buffer : List Nat) : Except IdtpError IdtpFrame :=
  if buffer.length < IDTP_HEADER_SIZE then .error .BufferUnderflow
  else
    match IdtpHeader.readFrom buffer with
    | none => .error .ParseError
    | some header =>
      let idtp := IdtpFrame.new.set_header header
      let payload_size := header.payload_size
      let trailer_size := idtp.trailer_size
      let expected_size := IDTP_HEADER_SIZE + payload_size + trailer_size
      if buffer.length < expected_size then .error .BufferUnderflow
      else
        match listGetRange buffer IDTP_HEADER_SIZE
            (IDTP_HEADER_SIZE + payload_size) with
        | none => .error .BufferUnderflow
        | some payload =>
          match idtp.set_payload_raw payload header.payload_type with
          | (idtp2, .ok _) => .ok idtp2
          | (_, .error e) => .error e

end IdtpFrame

/-- Standard payload registry (`payload.rs`, feature `std_payloads`): pairs of
`TYPE_ID` and byte size (`size_of::<T>()`, packed `f32` fields). -/
def stdPayloads : List (Nat × Nat) :=
  [(0x00, 12), (0x01, 12), (0x02, 12), (0x03, 24), (0x04, 36), (0x05, 40),
   (0x06, 16)]

/-! ### Helper lemmas on slice operations and the header codec -/

theorem listSetRange_eq (l v : List Nat) (a b : Nat) (h1 : a ≤ b)
    (h2 : b ≤ l.length) (h3 : v.length = b - a) :
    listSetRange l a b v = some (l.take a ++ v ++ l.drop b) := by
  simp [listSetRange, h1, h2, h3]

theorem listGetRange_eq (l : List Nat) (a b : Nat) (h1 : a ≤ b)
    (h2 : b ≤ l.length) :
    listGetRange l a b = some ((l.drop a).take (b - a)) := by
  simp [listGetRange, h1, h2]

theorem listSetIdx_eq (l : List Nat) (i v : Nat) (h : i < l.length) :
    listSetIdx l i v = some (l.set i v) := by
  simp [listSetIdx, h]

theorem asBytes_length (h : IdtpHeader) : h.asBytes.length = 20 := rfl

theorem asBytes_set_crc (h : IdtpHeader) (v : Nat) :
    (h.asBytes).set 19 v = ({ h with crc := v }).asBytes := rfl

theorem asBytes_take19_set_crc (h : IdtpHeader) (v : Nat) :
    ({ h with crc := v }).asBytes.take 19 = h.asBytes.take 19 := rfl

theorem asBytes_append_take19 (h : IdtpHeader) (R : List Nat) :
    (h.asBytes ++ R).take 19 = h.asBytes.take 19 := rfl

theorem asBytes_append_get19 (h : IdtpHeader) (R : List Nat) :
    (h.asBytes ++ R)[19]? = some h.crc := by
  simp [IdtpHeader.asBytes]

/-- `read_from_prefix` inverts `as_bytes` on any buffer extending the header
image, provided the header fields are within their `u32`/`u16`/`u8` bounds. -/
theorem readFrom_asBytes (h : IdtpHeader) (hWF : h.WF) (R : List Nat) :
    IdtpHeader.readFrom (h.asBytes ++ R) = some h := by
  cases h with
  | mk p t s d ps v m pt c =>
    simp only [IdtpHeader.WF] at hWF
    obtain ⟨h1, h2, h3, h4, h5, h6, h7, h8⟩ := hWF
    simp only [IdtpHeader.asBytes, List.cons_append, List.nil_append,
      IdtpHeader.readFrom, Option.some.injEq, IdtpHeader.mk.injEq]
    and_intros <;> first | trivial | omega

theorem payload_raw_eq (f : IdtpFrame) (hpl : f.payload.length = 972)
    (hps : f.header.payload_size ≤ 972) :
    f.payload_raw = .ok (f.payload.take f.header.payload_size) := by
  simp [IdtpFrame.payload_raw, getFirstN, IdtpFrame.payload_size, hpl, hps]

theorem size_eq (f : IdtpFrame) :
    f.size = 20 + f.header.payload_size + f.trailer_size := rfl

theorem trailer_size_le (f : IdtpFrame) : f.trailer_size ≤ 32 := by
  unfold IdtpFrame.trailer_size
  rcases Mode.ofByte f.header.mode <;> simp

/-- Step 1 of `pack_with`: writing the 20 header bytes. -/
theorem pack_step_header (h : IdtpHeader) (b : List Nat) (hb : 20 ≤ b.length) :
    listSetRange b 0 20 h.asBytes = some (h.asBytes ++ b.drop 20) := by
  have := listSetRange_eq b h.asBytes 0 20 (by omega) (by omega)
    (by simp [asBytes_length])
  simpa using this

/-- Step 2 of `pack_with`: reading the 19 CRC-covered header bytes. -/
theorem pack_step_crcdata (h : IdtpHeader) (R : List Nat) :
    listGetRange (h.asBytes ++ R) 0 19 = some (h.asBytes.take 19) := by
  rw [listGetRange_eq _ 0 19 (by omega)
    (by rw [List.length_append, asBytes_length]; omega)]
  simp [asBytes_append_take19]

/-- Step 3 of `pack_with`: storing the CRC-8 at byte 19. -/
theorem pack_step_storecrc (h : IdtpHeader) (R : List Nat) (v : Nat) :
    listSetIdx (h.asBytes ++ R) 19 v =
      some (({ h with crc := v }).asBytes ++ R) := by
  rw [listSetIdx_eq _ 19 v
    (by rw [List.length_append, asBytes_length]; omega)]
  rw [List.set_append_left _ _ (by rw [asBytes_length]; omega)]
  rw [asBytes_set_crc]

/-- Step 4 of `pack_with`: copying the payload bytes. -/
theorem pack_step_payload (h : IdtpHeader) (b pl : List Nat) (n : Nat)
    (hpl : pl.length = n) (hb : 20 + n ≤ b.length) :
    listSetRange (h.asBytes ++ b.drop 20) 20 (20 + n) pl =
      some (h.asBytes ++ pl ++ b.drop (20 + n)) := by
  rw [listSetRange_eq _ _ 20 (20 + n) (by omega)
    (by rw [List.length_append, asBytes_length, List.length_drop]; omega)
    (by omega)]
  rw [List.take_left' (asBytes_length h)]
  have h1 : (h.asBytes ++ b.drop 20).drop (h.asBytes.length + n) =
      (b.drop 20).drop n := List.drop_append n
  rw [asBytes_length] at h1
  rw [h1, List.drop_drop]

/-- Step 5 of `pack_with`: reading header plus payload for the trailer. -/
theorem pack_step_data (h : IdtpHeader) (pl X : List Nat) (n : Nat)
    (hpl : pl.length = n) :
    listGetRange (h.asBytes ++ pl ++ X) 0 (20 + n) =
      some (h.asBytes ++ pl) := by
  rw [listGetRange_eq _ 0 (20 + n) (by omega)
    (by simp only [List.length_append, asBytes_length]; omega)]
  simp only [List.drop_zero, Nat.sub_zero]
  rw [List.take_left' (by rw [List.length_append, asBytes_length, hpl])]

/-- Step 6 of `pack_with`: writing a trailer of length `k`. -/
theorem pack_step_trailer (h : IdtpHeader) (b pl v : List Nat) (n k : Nat)
    (hpl : pl.length = n) (hv : v.length = k) (hb : 20 + n + k ≤ b.length) :
    listSetRange (h.asBytes ++ pl ++ b.drop (20 + n)) (20 + n) (20 + n + k) v =
      some (h.asBytes ++ pl ++ v ++ b.drop (20 + n + k)) := by
  rw [listSetRange_eq _ _ (20 + n) (20 + n + k) (by omega)
    (by simp only [List.length_append, asBytes_length, List.length_drop]
        omega)
    (by omega)]
  have ht : (h.asBytes ++ pl ++ b.drop (20 + n)).take (20 + n) =
      h.asBytes ++ pl := by
    rw [List.take_left']
    rw [List.length_append, asBytes_length, hpl]
  have hd : (h.asBytes ++ pl ++ b.drop (20 + n)).drop (20 + n + k) =
      b.drop (20 + n + k) := by
    have h1 : ((h.asBytes ++ pl) ++ b.drop (20 + n)).drop
        ((h.asBytes ++ pl).length + k) = (b.drop (20 + n)).drop k :=
      List.drop_append k
    rw [List.length_append, asBytes_length, hpl] at h1
    have h2 : 20 + n + k = (20 + n) + k := by omega
    rw [h2, h1, List.drop_drop]
  rw [ht, hd]

/-- Step 6 of `pack_with`, failing case: a trailer value of the wrong
length (impossible for the Rust closures, whose return types fix it). -/
theorem pack_step_trailer_none (h : IdtpHeader) (b pl v : List Nat) (n k : Nat)
    (hv : v.length ≠ k) :
    listSetRange (h.asBytes ++ pl ++ b.drop (20 + n)) (20 + n) (20 + n + k) v =
      none := by
  rw [listSetRange]
  rw [if_neg]
  rintro ⟨-, -, h3⟩
  exact hv (by omega)

/-- Full evaluation of a successful `pack_with` run: the output buffer is the
header image (with the CRC-8 byte stored at offset 19), the payload bytes,
the mode-dependent trailer, and the untouched rest of the caller buffer. -/
theorem pack_with_eval (f : IdtpFrame) (buffer : List Nat)
    (c8 c32 : List Nat → Except IdtpError Nat)
    (hm : List Nat → Except IdtpError (List Nat)) (c8v : Nat)
    (hpl : f.payload.length = 972) (hps : f.header.payload_size ≤ 972)
    (hbuf : f.size ≤ buffer.length)
    (hc8 : c8 (f.header.asBytes.take 19) = .ok c8v) :
    f.pack_with buffer c8 c32 hm =
      (let ps := f.header.payload_size
       let hd := ({ f.header with crc := c8v }).asBytes
       let pl := f.payload.take ps
       match Mode.ofByte f.header.mode with
       | .Lite => (hd ++ pl ++ buffer.drop (20 + ps), .ok (20 + ps))
       | .Unknown => (hd ++ pl ++ buffer.drop (20 + ps), .ok (20 + ps))
       | .Safety =>
         match c32 (hd ++ pl) with
         | .error e => (hd ++ pl ++ buffer.drop (20 + ps), .error e)
         | .ok v =>
           (hd ++ pl ++ u32le v ++ buffer.drop (20 + ps + 4), .ok (20 + ps + 4))
       | .Secure =>
         match hm (hd ++ pl) with
         | .error e => (hd ++ pl ++ buffer.drop (20 + ps), .error e)
         | .ok v =>
           if v.length = 32 then
             (hd ++ pl ++ v ++ buffer.drop (20 + ps + 32), .ok (20 + ps + 32))
           else (hd ++ pl ++ buffer.drop (20 + ps), .error .BufferUnderflow)) := by
  have hts := trailer_size_le f
  have hsz := size_eq f
  have hb20 : 20 ≤ buffer.length := by omega
  have hbps : 20 + f.header.payload_size ≤ buffer.length := by omega
  have hplen : (f.payload.take f.header.payload_size).length =
      f.header.payload_size := by
    rw [List.length_take, hpl]; omega
  simp only [IdtpFrame.pack_with, IdtpFrame.payload_size, IDTP_HEADER_SIZE]
  rw [if_neg (by omega : ¬ buffer.length < f.size)]
  simp only [pack_step_header f.header buffer hb20,
    pack_step_crcdata, hc8, pack_step_storecrc,
    payload_raw_eq f hpl hps,
    pack_step_payload _ buffer _ _ hplen hbps,
    pack_step_data _ _ _ _ hplen]
  cases hmode : Mode.ofByte f.header.mode with
  | Lite =>
    have htr : f.trailer_size = 0 := by simp [IdtpFrame.trailer_size, hmode]
    rw [htr]
    rfl
  | Unknown =>
    have htr : f.trailer_size = 0 := by simp [IdtpFrame.trailer_size, hmode]
    rw [htr]
    rfl
  | Safety =>
    have htr : f.trailer_size = 4 := by simp [IdtpFrame.trailer_size, hmode]
    rw [htr] at hsz ⊢
    dsimp only
    cases hc32 : c32 (({ f.header with crc := c8v }).asBytes ++
        f.payload.take f.header.payload_size) with
    | error e => rfl
    | ok v =>
      dsimp only
      rw [pack_step_trailer _ buffer _ (u32le v) _ 4 hplen rfl (by omega)]
  | Secure =>
    have htr : f.trailer_size = 32 := by simp [IdtpFrame.trailer_size, hmode]
    rw [htr] at hsz ⊢
    dsimp only
    cases hhm : hm (({ f.header with crc := c8v }).asBytes ++
        f.payload.take f.header.payload_size) with
    | error e => rfl
    | ok v =>
      dsimp only
      by_cases hv : v.length = 32
      · rw [pack_step_trailer _ buffer _ v _ 32 hplen hv (by omega)]
        rw [if_pos hv]
      · rw [pack_step_trailer_none _ buffer _ v _ 32 hv]
        rw [if_neg hv]

theorem u32le_roundtrip (v : Nat) (hv : v < 4294967296) :
    u32fromLE (v % 256) (v / 256 % 256) (v / 65536 % 256)
      (v / 16777216 % 256) = v := by
  unfold u32fromLE
  omega

/-- Trailer read during `validate_with`: elements `[20+n, 20+n+k)` of the
packed image are the trailer. -/
theorem validate_step_trailer (h : IdtpHeader) (pl T rest : List Nat)
    (n k : Nat) (hpl : pl.length = n) (hT : T.length = k) :
    listGetRange (h.asBytes ++ (pl ++ (T ++ rest))) (20 + n) (20 + n + k) =
      some T := by
  rw [listGetRange_eq _ (20 + n) (20 + n + k) (by omega)
    (by simp only [List.length_append, asBytes_length]; omega)]
  have h1 : (h.asBytes ++ (pl ++ (T ++ rest))).drop (h.asBytes.length + n) =
      (pl ++ (T ++ rest)).drop n := List.drop_append n
  rw [asBytes_length] at h1
  rw [h1, List.drop_left' hpl]
  have h2 : 20 + n + k - (20 + n) = k := by omega
  rw [h2, List.take_left' hT]

/-- Payload+header read during `validate_with` in right-associated form. -/
theorem validate_step_data (h : IdtpHeader) (pl X : List Nat) (n : Nat)
    (hpl : pl.length = n) :
    listGetRange (h.asBytes ++ (pl ++ X)) 0 (20 + n) =
      some (h.asBytes ++ pl) := by
  rw [← List.append_assoc]
  exact pack_step_data h pl X n hpl

/-- First 19 bytes read during `validate_with`. -/
theorem validate_step_crcdata (h : IdtpHeader) (R : List Nat) :
    listGetRange (h.asBytes ++ R) 0 19 = some (h.asBytes.take 19) :=
  pack_step_crcdata h R

/-- `validate_with` accepts a well-formed packed image whose trailer matches
the recomputed integrity value for its mode. -/
theorem validate_with_packed (h : IdtpHeader) (pl T rest : List Nat)
    (c8 c32 : List Nat → Except IdtpError Nat)
    (hm : List Nat → Except IdtpError (List Nat))
    (hWF : h.WF) (hpl : pl.length = h.payload_size)
    (hc8 : c8 (h.asBytes.take 19) = .ok h.crc)
    (hT : match Mode.ofByte h.mode with
          | .Lite => T = []
          | .Safety => ∃ v, c32 (h.asBytes ++ pl) = .ok v ∧
              v < 4294967296 ∧ T = u32le v
          | .Secure => ∃ v, hm (h.asBytes ++ pl) = .ok v ∧
              v.length = 32 ∧ T = v
          | .Unknown => False) :
    IdtpFrame.validate_with (h.asBytes ++ (pl ++ (T ++ rest))) c8 c32 hm =
      .ok () := by
  have hTlen : T.length = (match Mode.ofByte h.mode with
      | .Safety => 4 | .Secure => 32 | .Lite | .Unknown => 0) := by
    cases hmode : Mode.ofByte h.mode <;> rw [hmode] at hT
    · rw [hT]; rfl
    · obtain ⟨v, -, -, hTv⟩ := hT; rw [hTv]; rfl
    · obtain ⟨v, -, hv32, hTv⟩ := hT; rw [hTv, hv32]
    · exact absurd hT (by simp)
  have hlen : (h.asBytes ++ (pl ++ (T ++ rest))).length =
      20 + h.payload_size + T.length + rest.length := by
    simp only [List.length_append, asBytes_length, hpl]
    omega
  simp only [IdtpFrame.validate_with, IDTP_HEADER_SIZE]
  rw [if_neg (by omega)]
  rw [asBytes_append_get19 h (pl ++ (T ++ rest))]
  rw [validate_step_crcdata]
  dsimp only
  rw [hc8]
  dsimp only
  rw [if_neg (by simp)]
  rw [readFrom_asBytes h hWF]
  dsimp only
  cases hmode : Mode.ofByte h.mode with
  | Lite =>
    rw [hmode] at hTlen
    dsimp only
    rw [if_neg (by omega)]
    rw [validate_step_data h pl (T ++ rest) h.payload_size hpl]
  | Unknown => rw [hmode] at hT; exact absurd hT (by simp)
  | Safety =>
    rw [hmode] at hT hTlen
    obtain ⟨v, hc32, hv, hTv⟩ := hT
    have hT4 : T.length = 4 := hTlen
    dsimp only
    rw [if_neg (by omega)]
    rw [validate_step_data h pl (T ++ rest) h.payload_size hpl]
    dsimp only
    rw [hc32]
    dsimp only
    rw [validate_step_trailer h pl T rest h.payload_size 4 hpl hT4]
    rw [hTv]
    dsimp only [u32le]
    rw [if_neg (by rw [u32le_roundtrip v hv]; simp)]
  | Secure =>
    rw [hmode] at hT hTlen
    obtain ⟨v, hhm, hv, hTv⟩ := hT
    have hT32 : T.length = 32 := hTlen
    dsimp only
    rw [if_neg (by omega)]
    rw [validate_step_data h pl (T ++ rest) h.payload_size hpl]
    dsimp only
    rw [hhm]
    dsimp only
    rw [validate_step_trailer h pl T rest h.payload_size 32 hpl hT32]
    rw [hTv]
    dsimp only
    rw [if_neg (by simp)]

/-- `validate_with` fails closed with `InvalidCrc` on a header whose mode byte
maps to `Unknown`, once the CRC-8 and length checks pass. -/
theorem validate_with_unknown (buffer : List Nat)
    (c8 c32 : List Nat → Except IdtpError Nat)
    (hm : List Nat → Except IdtpError (List Nat))
    (h : IdtpHeader) (c8v : Nat)
    (hparse : IdtpHeader.readFrom buffer = some h)
    (hmode : Mode.ofByte h.mode = .Unknown)
    (hc8 : c8 (buffer.take 19) = .ok c8v)
    (hrecv : buffer[19]? = some c8v)
    (hlen : 20 + h.payload_size ≤ buffer.length) :
    IdtpFrame.validate_with buffer c8 c32 hm = .error .InvalidCrc := by
  have hb20 : 20 ≤ buffer.length := by omega
  simp only [IdtpFrame.validate_with, IDTP_HEADER_SIZE]
  rw [if_neg (by omega)]
  rw [hrecv]
  rw [listGetRange_eq buffer 0 19 (by omega) (by omega)]
  simp only [List.drop_zero, Nat.sub_zero]
  rw [hc8]
  dsimp only
  rw [if_neg (by simp)]
  rw [hparse]
  dsimp only
  rw [hmode]
  dsimp only
  rw [if_neg (by omega)]
  rw [listGetRange_eq buffer 0 (20 + h.payload_size) (by omega) (by omega)]

/-- `TryFrom<&[u8]>` on a packed frame image recovers the header verbatim and
the payload bytes into a zero-padded backing array. -/
theorem try_from_packed (h : IdtpHeader) (pl T : List Nat)
    (hWF : h.WF) (hpl : pl.length = h.payload_size)
    (hps : h.payload_size ≤ 972)
    (hT : T.length = (match Mode.ofByte h.mode with
      | .Safety => 4 | .Secure => 32 | .Lite | .Unknown => 0)) :
    IdtpFrame.try_from (h.asBytes ++ (pl ++ T)) =
      .ok { header := h,
            payload := pl ++ (List.replicate 972 0).drop pl.length } := by
  have hlen : (h.asBytes ++ (pl ++ T)).length =
      20 + h.payload_size + T.length := by
    simp only [List.length_append, asBytes_length, hpl]
    omega
  have htrT : (IdtpFrame.new.set_header h).trailer_size = T.length := by
    simp only [IdtpFrame.trailer_size, IdtpFrame.set_header, IdtpFrame.new]
    rw [hT]
  simp only [IdtpFrame.try_from, IDTP_HEADER_SIZE]
  rw [if_neg (by omega)]
  rw [readFrom_asBytes h hWF]
  dsimp only
  rw [htrT]
  rw [if_neg (by omega)]
  rw [listGetRange_eq _ 20 (20 + h.payload_size) (by omega) (by omega)]
  rw [List.drop_left' (asBytes_length h)]
  rw [show 20 + h.payload_size - 20 = h.payload_size from by omega]
  rw [List.take_left' hpl]
  dsimp only
  simp only [IdtpFrame.set_payload_raw, setFirstN, IdtpFrame.new,
    IdtpFrame.set_header, IDTP_FRAME_MAX_SIZE]
  rw [if_neg (by omega)]
  rw [if_pos (by simp only [List.length_replicate]; omega)]
  dsimp only
  refine congrArg Except.ok ?_
  refine congrArg₂ IdtpFrame.mk ?_ rfl
  rw [show pl.length % 65536 = h.payload_size from by omega]

end Idtp

namespace Idtp

set_option maxRecDepth 10000

/-- A successful `set_payload_raw`: payload copied into the front of the
backing array, `payload_type` and `payload_size` updated. -/
theorem set_payload_raw_ok (f : IdtpFrame) (bytes : List Nat) (pt : Nat)
    (hpl : f.payload.length = 972) (hlen : bytes.length ≤ 972) :
    f.set_payload_raw bytes pt =
      ({ header := { f.header with payload_type := pt, payload_size := bytes.length % 65536 }, payload := bytes ++ f.payload.drop bytes.length }, .ok ()) := by
  simp only [IdtpFrame.set_payload_raw, setFirstN, IDTP_FRAME_MAX_SIZE]
  rw [if_neg (by omega), if_pos (by omega)]

/-- C4: an oversized blob is rejected by `set_payload_raw` with
`BufferOverflow`, and the frame state (header and payload array alike) is
returned unchanged; likewise for the typed `set_payload`. -/
theorem set_payload_overflow_unchanged (f : IdtpFrame) (bytes : List Nat)
    (pt tid : Nat) (hpl : f.payload.length = 972)
    (hlen : 972 < bytes.length) :
    f.set_payload_raw bytes pt = (f, .error .BufferOverflow) ∧
    f.set_payload tid bytes = (f, .error .BufferOverflow) := by
  constructor
  · simp only [IdtpFrame.set_payload_raw, setFirstN, IDTP_FRAME_MAX_SIZE]
    by_cases hc : bytes.length > 1024
    · rw [if_pos hc]
    · rw [if_neg hc, if_neg (by omega)]
  · simp only [IdtpFrame.set_payload, IDTP_PAYLOAD_MAX_SIZE]
    rw [if_pos (by omega)]

theorem set_payload_overflow_unchanged_witness :
    IdtpFrame.new.set_payload_raw (List.replicate 1000 7) 0x80 =
      (IdtpFrame.new, .error .BufferOverflow) ∧
    IdtpFrame.new.set_payload 0x80 (List.replicate 1000 7) =
      (IdtpFrame.new, .error .BufferOverflow) :=
  set_payload_overflow_unchanged IdtpFrame.new (List.replicate 1000 7)
    0x80 0x80 (by decide) (by decide)

/-- C7 counterexample: `IdtpHeader::new()` leaves the mode byte at the
derived `u8` default `0x00` (Lite), not Safety `0x01`. -/
theorem header_new_mode_not_safety :
    IdtpHeader.new.mode = 0x00 ∧ IdtpHeader.new.mode ≠ 0x01 := by
  decide

/-- C7 (amended): `IdtpHeader::new()` sets the preamble and version
constants and leaves every other field — the mode byte included — zero. -/
theorem header_new_defaults :
    IdtpHeader.new =
      { preamble := 0x50544449, timestamp := 0, sequence := 0, device_id := 0,
        payload_size := 0, version := 0x21, mode := 0, payload_type := 0,
        crc := 0 } := by
  decide

/-- C8: packing a Safety-mode frame with a 3-byte payload through constant
primitives writes the CRC-8 byte at offset 19 and the CRC-32 little-endian
after the payload, returning total length 27. -/
theorem pack_custom_primitives_concrete :
    (let fr := ((IdtpFrame.new.set_header { IdtpHeader.new with mode := 0x01 }).set_payload_raw [0xAA, 0xBB, 0xCC] 0x80).1
     let res := fr.pack_with (List.replicate 128 0) (fun _ => .ok 0xDE)
       (fun _ => .ok 0xDEADBEEF) (fun _ => .ok (List.replicate 32 0))
     res.2 = .ok 27 ∧ res.1[19]? = some 0xDE ∧
       listGetRange res.1 23 27 = some [0xEF, 0xBE, 0xAD, 0xDE]) := by
  decide

/-- C9: `from_bytes` for any standard registry payload type fails exactly
when the input is shorter than the payload size, and on success the value is
read from exactly the first `size` bytes (trailing bytes ignored). -/
theorem payload_from_bytes_exact (p : Nat × Nat) (hp : p ∈ stdPayloads)
    (data : List Nat) :
    (data.length < p.2 →
      IdtpFrame.payloadFromBytes p.2 data = .error .BufferUnderflow) ∧
    (p.2 ≤ data.length →
      IdtpFrame.payloadFromBytes p.2 data = .ok (data.take p.2)) := by
  constructor
  · intro h
    simp only [IdtpFrame.payloadFromBytes]
    rw [if_pos h]
  · intro h
    simp only [IdtpFrame.payloadFromBytes, getFirstN]
    rw [if_neg (by omega), if_pos (by omega)]

theorem payload_from_bytes_exact_witness :
    IdtpFrame.payloadFromBytes 12 (List.replicate 16 9) =
      .ok (List.replicate 12 9) ∧
    IdtpFrame.payloadFromBytes 12 (List.replicate 8 9) =
      .error .BufferUnderflow := by
  constructor
  · have h := (payload_from_bytes_exact (0x00, 12) (by decide)
      (List.replicate 16 9)).2 (by decide)
    rw [h]
    decide
  · exact (payload_from_bytes_exact (0x00, 12) (by decide)
      (List.replicate 8 9)).1 (by decide)

end Idtp

namespace Idtp

set_option maxRecDepth 10000

/-- C5 counterexample: a frame whose mode byte is 0xFF (Unknown) is packed
successfully — `pack_with` returns `Ok 20`, not `ParseError`. -/
theorem pack_unknown_mode_succeeds_cex :
    (let res := (IdtpFrame.new.set_header { IdtpHeader.new with mode := 0xFF }).pack_with
       (List.replicate 20 0) (fun _ => .ok 0) (fun _ => .ok 0)
       (fun _ => .ok (List.replicate 32 0))
     res.2 = .ok 20 ∧ res.2 ≠ .error .ParseError) := by
  refine ⟨by decide, by decide⟩

/-- C5 (amended): on a frame whose mode byte maps to `Unknown`, `pack_with`
does not return `ParseError`; it treats the trailer as empty (as in Lite
mode) and, when the buffer is large enough and the CRC-8 primitive succeeds,
returns `Ok (20 + payload_size)`. -/
theorem pack_unknown_mode_like_lite (f : IdtpFrame) (buffer : List Nat)
    (c8 c32 : List Nat → Except IdtpError Nat)
    (hm : List Nat → Except IdtpError (List Nat)) (c8v : Nat)
    (hunknown : Mode.ofByte f.header.mode = .Unknown)
    (hpl : f.payload.length = 972) (hps : f.header.payload_size ≤ 972)
    (hbuf : f.size ≤ buffer.length)
    (hc8 : c8 (f.header.asBytes.take 19) = .ok c8v) :
    (f.pack_with buffer c8 c32 hm).2 = .ok (20 + f.header.payload_size) := by
  rw [pack_with_eval f buffer c8 c32 hm c8v hpl hps hbuf hc8]
  dsimp only
  rw [hunknown]

theorem pack_unknown_mode_like_lite_witness :
    ((IdtpFrame.new.set_header { IdtpHeader.new with mode := 0x7E }).pack_with
       (List.replicate 64 0) (fun _ => .ok 3) (fun _ => .ok 5)
       (fun _ => .ok (List.replicate 32 1))).2 = .ok 20 :=
  pack_unknown_mode_like_lite
    (IdtpFrame.new.set_header { IdtpHeader.new with mode := 0x7E })
    (List.replicate 64 0) (fun _ => .ok 3) (fun _ => .ok 5)
    (fun _ => .ok (List.replicate 32 1)) 3 (by decide) (by decide) (by decide)
    (by decide) (by decide)

/-- C6 counterexample: a 20-byte buffer whose CRC-8 check passes and whose
mode byte is 0xFF, but whose `payload_size` field is 5, makes
`validate_with` return `BufferUnderflow` (the size check fires before the
Unknown-mode rejection), not `InvalidCrc`. -/
theorem validate_unknown_short_buffer_cex :
    (let buf := IdtpHeader.asBytes { IdtpHeader.new with mode := 0xFF, payload_size := 5 }
     let res := IdtpFrame.validate_with buf (fun _ => .ok 0) (fun _ => .ok 0)
       (fun _ => .ok (List.replicate 32 0))
     buf.length = 20 ∧ buf[19]? = some 0 ∧ buf[17]? = some 0xFF ∧
       res = .error .BufferUnderflow ∧ res ≠ .error .InvalidCrc) := by
  refine ⟨by decide, by decide, by decide, by decide, by decide⟩

/-- C6 (amended): when additionally the buffer covers the advertised
`payload_size` (so the length check passes), `validate_with` fails closed
with `InvalidCrc` on a mode byte outside 0x00/0x01/0x02. -/
theorem validate_unknown_mode_invalid_crc (buffer : List Nat)
    (c8 c32 : List Nat → Except IdtpError Nat)
    (hm : List Nat → Except IdtpError (List Nat))
    (h : IdtpHeader) (c8v : Nat)
    (hparse : IdtpHeader.readFrom buffer = some h)
    (hmode : Mode.ofByte h.mode = .Unknown)
    (hc8 : c8 (buffer.take 19) = .ok c8v)
    (hrecv : buffer[19]? = some c8v)
    (hlen : 20 + h.payload_size ≤ buffer.length) :
    IdtpFrame.validate_with buffer c8 c32 hm = .error .InvalidCrc :=
  validate_with_unknown buffer c8 c32 hm h c8v hparse hmode hc8 hrecv hlen

theorem validate_unknown_mode_invalid_crc_witness :
    IdtpFrame.validate_with
      (IdtpHeader.asBytes { IdtpHeader.new with mode := 0xFF })
      (fun _ => .ok 0) (fun _ => .ok 0) (fun _ => .ok (List.replicate 32 0)) =
      .error .InvalidCrc :=
  validate_unknown_mode_invalid_crc
    (IdtpHeader.asBytes { IdtpHeader.new with mode := 0xFF })
    (fun _ => .ok 0) (fun _ => .ok 0) (fun _ => .ok (List.replicate 32 0))
    { IdtpHeader.new with mode := 0xFF } 0 (by decide) (by decide) (by decide)
    (by decide) (by decide)

/-- C10: installing a header whose `payload_size` exceeds the 972-byte
backing array leaves every operation total and failing as a value:
`payload_raw` and the typed payload accessor return `ParseError`, and
`pack_with` returns `ParseError` even with an output buffer of at least
`size()` bytes (provided the CRC-8 primitive itself succeeds). -/
theorem oversize_payload_size_fails_closed (f : IdtpFrame) (h : IdtpHeader)
    (sz : Nat) (buffer : List Nat)
    (c8 c32 : List Nat → Except IdtpError Nat)
    (hm : List Nat → Except IdtpError (List Nat)) (c8v : Nat)
    (hpl : f.payload.length = 972) (hps : 972 < h.payload_size) :
    (f.set_header h).payload_raw = .error .ParseError ∧
    (f.set_header h).payloadT sz = .error .ParseError ∧
    ((f.set_header h).size ≤ buffer.length →
      c8 (h.asBytes.take 19) = .ok c8v →
      ((f.set_header h).pack_with buffer c8 c32 hm).2 = .error .ParseError) := by
  have hget : getFirstN (f.set_header h).payload
      (f.set_header h).payload_size = none := by
    simp only [getFirstN, IdtpFrame.set_header, IdtpFrame.payload_size]
    rw [if_neg (by omega)]
  refine ⟨?_, ?_, ?_⟩
  · simp only [IdtpFrame.payload_raw, hget]
  · simp only [IdtpFrame.payloadT, hget]
  · intro hbuf hc8
    simp only [IdtpFrame.set_header] at hbuf
    have hts := trailer_size_le ({ header := h, payload := f.payload } : IdtpFrame)
    have hsz : ({ header := h, payload := f.payload } : IdtpFrame).size =
        20 + h.payload_size +
          ({ header := h, payload := f.payload } : IdtpFrame).trailer_size := rfl
    have hb20 : 20 ≤ buffer.length := by omega
    simp only [IdtpFrame.pack_with, IdtpFrame.payload_size,
      IdtpFrame.set_header, IDTP_HEADER_SIZE]
    rw [if_neg (by omega)]
    rw [pack_step_header h buffer hb20]
    dsimp only
    rw [pack_step_crcdata]
    dsimp only
    rw [hc8]
    dsimp only
    rw [pack_step_storecrc]
    dsimp only
    have hpr : ({ header := h, payload := f.payload } : IdtpFrame).payload_raw =
        .error .ParseError := by
      simp only [IdtpFrame.payload_raw, getFirstN, IdtpFrame.payload_size]
      rw [if_neg (by omega)]
    rw [hpr]

theorem oversize_payload_size_fails_closed_witness :
    (IdtpFrame.new.set_header { IdtpHeader.new with payload_size := 1000 }).payload_raw =
      .error .ParseError ∧
    ((IdtpFrame.new.set_header { IdtpHeader.new with payload_size := 1000 }).pack_with
      (List.replicate 1020 0) (fun _ => .ok 0) (fun _ => .ok 0)
      (fun _ => .ok (List.replicate 32 0))).2 = .error .ParseError := by
  have h := oversize_payload_size_fails_closed IdtpFrame.new
    { IdtpHeader.new with payload_size := 1000 } 12 (List.replicate 1020 0)
    (fun _ => .ok 0) (fun _ => .ok 0) (fun _ => .ok (List.replicate 32 0)) 0
    (by decide) (by decide)
  exact ⟨h.1, h.2.2 (by decide) (by decide)⟩

end Idtp

namespace Idtp

set_option maxRecDepth 10000

/-- Successful `pack_with` with never-failing primitives, with the output
written in right-associated form: header image with stored CRC-8, payload,
trailer `T`, untouched tail. -/
theorem pack_ok_assoc (f : IdtpFrame) (buffer : List Nat)
    (c8 c32 : List Nat → Except IdtpError Nat)
    (hm : List Nat → Except IdtpError (List Nat))
    (hpl : f.payload.length = 972) (hps : f.header.payload_size ≤ 972)
    (hmode : Mode.ofByte f.header.mode ≠ .Unknown)
    (hbuf : f.size ≤ buffer.length)
    (hc8 : ∀ d, ∃ v, c8 d = .ok v)
    (hc32 : ∀ d, ∃ v, c32 d = .ok v)
    (hhm : ∀ d, ∃ v, hm d = .ok v ∧ v.length = 32) :
    ∃ c8v T,
      c8 (f.header.asBytes.take 19) = .ok c8v ∧
      T.length = f.trailer_size ∧
      f.pack_with buffer c8 c32 hm =
        (({ f.header with crc := c8v }).asBytes ++
          (f.payload.take f.header.payload_size ++
            (T ++ buffer.drop (20 + f.header.payload_size + T.length))),
         .ok (20 + f.header.payload_size + T.length)) ∧
      (match Mode.ofByte f.header.mode with
       | .Lite => T = []
       | .Safety => ∃ v, c32 (({ f.header with crc := c8v }).asBytes ++
           f.payload.take f.header.payload_size) = .ok v ∧ T = u32le v
       | .Secure => ∃ v, hm (({ f.header with crc := c8v }).asBytes ++
           f.payload.take f.header.payload_size) = .ok v ∧ v.length = 32 ∧
           T = v
       | .Unknown => True) := by
  obtain ⟨c8v, hc8v⟩ := hc8 (f.header.asBytes.take 19)
  have heval := pack_with_eval f buffer c8 c32 hm c8v hpl hps hbuf hc8v
  cases hmode' : Mode.ofByte f.header.mode with
  | Unknown => exact absurd hmode' hmode
  | Lite =>
    rw [hmode'] at heval
    dsimp only at heval
    refine ⟨c8v, [], hc8v, by simp [IdtpFrame.trailer_size, hmode'], ?_,
      rfl⟩
    rw [heval]
    simp [List.append_assoc]
  | Safety =>
    obtain ⟨v, hv⟩ := hc32 (({ f.header with crc := c8v }).asBytes ++
      f.payload.take f.header.payload_size)
    rw [hmode'] at heval
    dsimp only at heval
    rw [hv] at heval
    dsimp only at heval
    refine ⟨c8v, u32le v, hc8v,
      by simp [u32le, IdtpFrame.trailer_size, hmode'], ?_,
      ⟨v, hv, rfl⟩⟩
    rw [heval]
    have h4 : (u32le v).length = 4 := rfl
    simp [List.append_assoc, h4]
  | Secure =>
    obtain ⟨v, hv, hv32⟩ := hhm (({ f.header with crc := c8v }).asBytes ++
      f.payload.take f.header.payload_size)
    rw [hmode'] at heval
    dsimp only at heval
    rw [hv] at heval
    dsimp only at heval
    rw [if_pos hv32] at heval
    refine ⟨c8v, v, hc8v,
      by rw [hv32]; simp [IdtpFrame.trailer_size, hmode'], ?_,
      ⟨v, hv, hv32, rfl⟩⟩
    rw [heval]
    simp [List.append_assoc, hv32]

/-- `take` of the canonical frame length on a packed image drops the
untouched tail. -/
theorem take_packed (h : IdtpHeader) (pl T rest : List Nat) (n k : Nat)
    (hpl : pl.length = n) (hT : T.length = k) :
    (h.asBytes ++ (pl ++ (T ++ rest))).take (20 + n + k) =
      h.asBytes ++ (pl ++ T) := by
  rw [← List.append_assoc, ← List.append_assoc]
  rw [List.take_left' (by
    simp only [List.length_append, asBytes_length]
    omega)]
  rw [List.append_assoc]

/-- C3: `pack_with` returns `BufferUnderflow`, writing nothing, whenever the
output buffer is shorter than `size()`; with a buffer of at least `size()`
bytes (valid mode, in-range payload, succeeding primitives) it succeeds and
returns exactly `size()`. -/
theorem pack_buffer_size_semantics (f : IdtpFrame) (buffer : List Nat)
    (c8 c32 : List Nat → Except IdtpError Nat)
    (hm : List Nat → Except IdtpError (List Nat)) :
    (buffer.length < f.size →
      f.pack_with buffer c8 c32 hm = (buffer, .error .BufferUnderflow)) ∧
    (f.payload.length = 972 → f.header.payload_size ≤ 972 →
      Mode.ofByte f.header.mode ≠ .Unknown → f.size ≤ buffer.length →
      (∀ d, ∃ v, c8 d = .ok v) → (∀ d, ∃ v, c32 d = .ok v) →
      (∀ d, ∃ v, hm d = .ok v ∧ v.length = 32) →
      (f.pack_with buffer c8 c32 hm).2 = .ok f.size) := by
  constructor
  · intro hlt
    simp only [IdtpFrame.pack_with]
    rw [if_pos hlt]
  · intro hpl hps hmode hbuf hc8 hc32 hhm
    obtain ⟨c8v, T, hc8v, hTlen, hpack, -⟩ :=
      pack_ok_assoc f buffer c8 c32 hm hpl hps hmode hbuf hc8 hc32 hhm
    rw [hpack]
    rw [size_eq f, ← hTlen]

theorem pack_buffer_size_semantics_witness :
    IdtpFrame.new.pack_with (List.replicate 19 0) (fun _ => .ok 0)
      (fun _ => .ok 0) (fun _ => .ok (List.replicate 32 0)) =
      (List.replicate 19 0, .error .BufferUnderflow) ∧
    (IdtpFrame.new.pack_with (List.replicate 20 0) (fun _ => .ok 0)
      (fun _ => .ok 0) (fun _ => .ok (List.replicate 32 0))).2 = .ok 20 := by
  constructor
  · exact (pack_buffer_size_semantics IdtpFrame.new (List.replicate 19 0)
      (fun _ => .ok 0) (fun _ => .ok 0)
      (fun _ => .ok (List.replicate 32 0))).1 (by decide)
  · exact (pack_buffer_size_semantics IdtpFrame.new (List.replicate 20 0)
      (fun _ => .ok 0) (fun _ => .ok 0)
      (fun _ => .ok (List.replicate 32 0))).2 (by decide) (by decide)
      (by decide) (by decide) (fun d => ⟨0, rfl⟩) (fun d => ⟨0, rfl⟩)
      (fun d => ⟨List.replicate 32 0, rfl, by decide⟩)

/-- C2 counterexample: for a frame whose header mode byte is 0xFF (Unknown),
`pack_with` succeeds but `validate_with` on the filled buffer with the same
primitives returns `InvalidCrc`, not `Ok`. -/
theorem validate_rejects_unknown_mode_pack_cex :
    (let fr := IdtpFrame.new.set_header { IdtpHeader.new with mode := 0xFF }
     let res := fr.pack_with (List.replicate 20 0) (fun _ => .ok 9)
       (fun _ => .ok 9) (fun _ => .ok (List.replicate 32 9))
     res.2 = .ok 20 ∧
       IdtpFrame.validate_with res.1 (fun _ => .ok 9) (fun _ => .ok 9)
         (fun _ => .ok (List.replicate 32 9)) = .error .InvalidCrc) := by
  refine ⟨by decide, by decide⟩

/-- C2 (amended): for every frame the builder can hold whose mode byte maps
to Lite, Safety or Secure (not Unknown), and deterministic primitives with
the Rust return types (`u8`-, `u32`-, 32-byte-valued), `validate_with`
accepts the buffer filled by a successful `pack_with` with those same
primitives; an Unknown mode byte packs but is rejected with `InvalidCrc`. -/
theorem validate_accepts_pack_output (f : IdtpFrame) (buffer : List Nat)
    (c8 c32 : List Nat → Except IdtpError Nat)
    (hm : List Nat → Except IdtpError (List Nat))
    (hWF : f.header.WF) (hpl : f.payload.length = 972)
    (hps : f.header.payload_size ≤ 972)
    (hmode : Mode.ofByte f.header.mode ≠ .Unknown)
    (hbuf : f.size ≤ buffer.length)
    (hc8 : ∀ d, ∃ v, c8 d = .ok v)
    (hc32 : ∀ d, ∃ v, c32 d = .ok v ∧ v < 4294967296)
    (hhm : ∀ d, ∃ v, hm d = .ok v ∧ v.length = 32) :
    ∃ out fs, f.pack_with buffer c8 c32 hm = (out, .ok fs) ∧
      IdtpFrame.validate_with out c8 c32 hm = .ok () := by
  obtain ⟨c8v, T, hc8v, hTlen, hpack, hTspec⟩ :=
    pack_ok_assoc f buffer c8 c32 hm hpl hps hmode hbuf hc8
      (fun d => (hc32 d).imp fun v hv => hv.1) hhm
  refine ⟨_, _, hpack, ?_⟩
  have hplen : (f.payload.take f.header.payload_size).length =
      f.header.payload_size := by
    rw [List.length_take, hpl]; omega
  apply validate_with_packed ({ f.header with crc := c8v })
    (f.payload.take f.header.payload_size) T
    (buffer.drop (20 + f.header.payload_size + T.length)) c8 c32 hm
  · exact hWF
  · exact hplen
  · exact hc8v
  · show (match Mode.ofByte f.header.mode with
      | .Lite => T = []
      | .Safety => ∃ v, c32 (({ f.header with crc := c8v }).asBytes ++
          f.payload.take f.header.payload_size) = .ok v ∧
          v < 4294967296 ∧ T = u32le v
      | .Secure => ∃ v, hm (({ f.header with crc := c8v }).asBytes ++
          f.payload.take f.header.payload_size) = .ok v ∧
          v.length = 32 ∧ T = v
      | .Unknown => False)
    cases hmode' : Mode.ofByte f.header.mode with
    | Lite => rw [hmode'] at hTspec; exact hTspec
    | Unknown => exact absurd hmode' hmode
    | Safety =>
      rw [hmode'] at hTspec
      obtain ⟨v, hv, hTv⟩ := hTspec
      obtain ⟨v2, hv2, hb2⟩ := hc32 (({ f.header with crc := c8v }).asBytes ++
        f.payload.take f.header.payload_size)
      have hvv : v = v2 := by
        have := hv.symm.trans hv2
        exact (Except.ok.injEq _ _ ▸ this)
      exact ⟨v, hv, by rw [hvv]; exact hb2, hTv⟩
    | Secure =>
      rw [hmode'] at hTspec
      exact hTspec

theorem validate_accepts_pack_output_witness :
    ∃ out fs,
      (IdtpFrame.new.set_header { IdtpHeader.new with mode := 0x01 }).pack_with
        (List.replicate 64 0) (fun _ => .ok 0xDE) (fun _ => .ok 0xDEADBEEF)
        (fun _ => .ok (List.replicate 32 0)) = (out, .ok fs) ∧
      IdtpFrame.validate_with out (fun _ => .ok 0xDE)
        (fun _ => .ok 0xDEADBEEF) (fun _ => .ok (List.replicate 32 0)) =
        .ok () :=
  validate_accepts_pack_output
    (IdtpFrame.new.set_header { IdtpHeader.new with mode := 0x01 })
    (List.replicate 64 0) (fun _ => .ok 0xDE) (fun _ => .ok 0xDEADBEEF)
    (fun _ => .ok (List.replicate 32 0)) (by decide) (by decide) (by decide)
    (by decide) (by decide) (fun d => ⟨0xDE, rfl⟩)
    (fun d => ⟨0xDEADBEEF, rfl, by decide⟩)
    (fun d => ⟨List.replicate 32 0, rfl, by decide⟩)

/-- Round trip `try_from` after `pack_with` for an arbitrary well-formed
builder state: the decoded header agrees field-by-field except for the
recomputed `crc` byte, and the decoded payload is the stored payload
prefix. -/
theorem pack_decode_round_trip_core (f : IdtpFrame) (buffer : List Nat)
    (c8 c32 : List Nat → Except IdtpError Nat)
    (hm : List Nat → Except IdtpError (List Nat))
    (hWFf : f.header.WF) (hpl : f.payload.length = 972)
    (hps : f.header.payload_size ≤ 972)
    (hmode : Mode.ofByte f.header.mode ≠ .Unknown)
    (hbuf : f.size ≤ buffer.length)
    (hc8 : ∀ d, ∃ v, c8 d = .ok v)
    (hc32 : ∀ d, ∃ v, c32 d = .ok v)
    (hhm : ∀ d, ∃ v, hm d = .ok v ∧ v.length = 32) :
    ∃ out fs f2,
      f.pack_with buffer c8 c32 hm = (out, .ok fs) ∧
      IdtpFrame.try_from (out.take fs) = .ok f2 ∧
      f2.header.preamble = f.header.preamble ∧
      f2.header.timestamp = f.header.timestamp ∧
      f2.header.sequence = f.header.sequence ∧
      f2.header.device_id = f.header.device_id ∧
      f2.header.payload_size = f.header.payload_size ∧
      f2.header.version = f.header.version ∧
      f2.header.mode = f.header.mode ∧
      f2.header.payload_type = f.header.payload_type ∧
      f2.payload_raw = .ok (f.payload.take f.header.payload_size) ∧
      f.payload_raw = .ok (f.payload.take f.header.payload_size) := by
  obtain ⟨c8v, T, hc8v, hTlen, hpack, -⟩ :=
    pack_ok_assoc f buffer c8 c32 hm hpl hps hmode hbuf hc8 hc32 hhm
  have hplen : (f.payload.take f.header.payload_size).length =
      f.header.payload_size := by
    rw [List.length_take, hpl]; omega
  have hWF2 : IdtpHeader.WF { f.header with crc := c8v } := hWFf
  have htake := take_packed ({ f.header with crc := c8v })
    (f.payload.take f.header.payload_size) T
    (buffer.drop (20 + f.header.payload_size + T.length))
    f.header.payload_size T.length hplen rfl
  have htry := try_from_packed ({ f.header with crc := c8v })
    (f.payload.take f.header.payload_size) T hWF2 hplen hps hTlen
  refine ⟨_, _,
    { header := { f.header with crc := c8v },
      payload := f.payload.take f.header.payload_size ++
        (List.replicate 972 0).drop
          (f.payload.take f.header.payload_size).length },
    hpack, ?_, rfl, rfl, rfl, rfl, rfl, rfl, rfl, rfl, ?_, ?_⟩
  · rw [htake]
    exact htry
  · have hlen2 : ({ header := { f.header with crc := c8v }, payload := f.payload.take f.header.payload_size ++ (List.replicate 972 0).drop (f.payload.take f.header.payload_size).length } : IdtpFrame).payload.length = 972 := by
      show (f.payload.take f.header.payload_size ++
        (List.replicate 972 0).drop
          (f.payload.take f.header.payload_size).length).length = 972
      simp only [List.length_append, List.length_take, List.length_drop,
        List.length_replicate]
      omega
    rw [payload_raw_eq _ hlen2 hps]
    exact congrArg Except.ok (List.take_left' hplen)
  · rw [payload_raw_eq f hpl hps]

/-- C1: for a valid header and payload installed via `set_payload_raw`,
decoding (`TryFrom<&[u8]>`) the bytes produced by a successful `pack_with`
yields a frame whose header equals the original in every field except
`header_crc`, and whose payload bytes equal the original payload bytes. -/
theorem pack_decode_round_trip (h : IdtpHeader) (bytes : List Nat) (pt : Nat)
    (f : IdtpFrame) (buffer : List Nat)
    (c8 c32 : List Nat → Except IdtpError Nat)
    (hm : List Nat → Except IdtpError (List Nat))
    (hWF : h.WF) (hpt : pt < 256) (hmode : Mode.ofByte h.mode ≠ .Unknown)
    (hblen : bytes.length ≤ 972)
    (hf : (IdtpFrame.new.set_header h).set_payload_raw bytes pt = (f, .ok ()))
    (hbuf : f.size ≤ buffer.length)
    (hc8 : ∀ d, ∃ v, c8 d = .ok v)
    (hc32 : ∀ d, ∃ v, c32 d = .ok v)
    (hhm : ∀ d, ∃ v, hm d = .ok v ∧ v.length = 32) :
    ∃ out fs f2,
      f.pack_with buffer c8 c32 hm = (out, .ok fs) ∧
      IdtpFrame.try_from (out.take fs) = .ok f2 ∧
      f2.header.preamble = f.header.preamble ∧
      f2.header.timestamp = f.header.timestamp ∧
      f2.header.sequence = f.header.sequence ∧
      f2.header.device_id = f.header.device_id ∧
      f2.header.payload_size = f.header.payload_size ∧
      f2.header.version = f.header.version ∧
      f2.header.mode = f.header.mode ∧
      f2.header.payload_type = f.header.payload_type ∧
      f2.payload_raw = .ok bytes ∧
      f.payload_raw = .ok bytes := by
  simp only [IdtpFrame.new, IdtpFrame.set_header] at hf
  rw [set_payload_raw_ok _ bytes pt (by simp) hblen] at hf
  have hfeq : f =
      { header := { h with payload_type := pt, payload_size := bytes.length % 65536 }, payload := bytes ++ (List.replicate 972 0).drop bytes.length } :=
    ((Prod.mk.injEq _ _ _ _).mp hf).1.symm
  obtain ⟨w1, w2, w3, w4, w5, w6, w7, w8⟩ := hWF
  have hWFf : f.header.WF := by
    rw [hfeq]
    exact ⟨w1, w2, w3, w4, by show bytes.length % 65536 < 65536; omega, w6,
      w7, hpt⟩
  have hpl2 : f.payload.length = 972 := by
    rw [hfeq]
    show (bytes ++ (List.replicate 972 0).drop bytes.length).length = 972
    simp only [List.length_append, List.length_drop, List.length_replicate]
    omega
  have hps2 : f.header.payload_size ≤ 972 := by
    rw [hfeq]
    show bytes.length % 65536 ≤ 972
    omega
  have hmode2 : Mode.ofByte f.header.mode ≠ .Unknown := by
    rw [hfeq]
    exact hmode
  have hbytes : f.payload.take f.header.payload_size = bytes := by
    rw [hfeq]
    show (bytes ++ (List.replicate 972 0).drop bytes.length).take
      (bytes.length % 65536) = bytes
    rw [show bytes.length % 65536 = bytes.length from by omega]
    exact List.take_left' rfl
  obtain ⟨out, fs, f2, hpack, htry, e1, e2, e3, e4, e5, e6, e7, e8, hp2, hp3⟩ :=
    pack_decode_round_trip_core f buffer c8 c32 hm hWFf hpl2 hps2 hmode2
      hbuf hc8 hc32 hhm
  rw [hbytes] at hp2 hp3
  exact ⟨out, fs, f2, hpack, htry, e1, e2, e3, e4, e5, e6, e7, e8, hp2, hp3⟩

theorem pack_decode_round_trip_witness :
    ∃ out fs f2,
      (((IdtpFrame.new.set_header { IdtpHeader.new with mode := 0x01 }).set_payload_raw [0x0A, 0x0B, 0x0C] 0x42).1).pack_with
        (List.replicate 64 0) (fun _ => .ok 0x5A) (fun _ => .ok 0xDEADBEEF)
        (fun _ => .ok (List.replicate 32 0)) = (out, .ok fs) ∧
      IdtpFrame.try_from (out.take fs) = .ok f2 ∧
      f2.header.preamble =
        (((IdtpFrame.new.set_header { IdtpHeader.new with mode := 0x01 }).set_payload_raw [0x0A, 0x0B, 0x0C] 0x42).1).header.preamble ∧
      f2.header.timestamp =
        (((IdtpFrame.new.set_header { IdtpHeader.new with mode := 0x01 }).set_payload_raw [0x0A, 0x0B, 0x0C] 0x42).1).header.timestamp ∧
      f2.header.sequence =
        (((IdtpFrame.new.set_header { IdtpHeader.new with mode := 0x01 }).set_payload_raw [0x0A, 0x0B, 0x0C] 0x42).1).header.sequence ∧
      f2.header.device_id =
        (((IdtpFrame.new.set_header { IdtpHeader.new with mode := 0x01 }).set_payload_raw [0x0A, 0x0B, 0x0C] 0x42).1).header.device_id ∧
      f2.header.payload_size =
        (((IdtpFrame.new.set_header { IdtpHeader.new with mode := 0x01 }).set_payload_raw [0x0A, 0x0B, 0x0C] 0x42).1).header.payload_size ∧
      f2.header.version =
        (((IdtpFrame.new.set_header { IdtpHeader.new with mode := 0x01 }).set_payload_raw [0x0A, 0x0B, 0x0C] 0x42).1).header.version ∧
      f2.header.mode =
        (((IdtpFrame.new.set_header { IdtpHeader.new with mode := 0x01 }).set_payload_raw [0x0A, 0x0B, 0x0C] 0x42).1).header.mode ∧
      f2.header.payload_type =
        (((IdtpFrame.new.set_header { IdtpHeader.new with mode := 0x01 }).set_payload_raw [0x0A, 0x0B, 0x0C] 0x42).1).header.payload_type ∧
      f2.payload_raw = .ok [0x0A, 0x0B, 0x0C] ∧
      (((IdtpFrame.new.set_header { IdtpHeader.new with mode := 0x01 }).set_payload_raw [0x0A, 0x0B, 0x0C] 0x42).1).payload_raw =
        .ok [0x0A, 0x0B, 0x0C] :=
  pack_decode_round_trip { IdtpHeader.new with mode := 0x01 }
    [0x0A, 0x0B, 0x0C] 0x42
    (((IdtpFrame.new.set_header { IdtpHeader.new with mode := 0x01 }).set_payload_raw [0x0A, 0x0B, 0x0C] 0x42).1)
    (List.replicate 64 0) (fun _ => .ok 0x5A) (fun _ => .ok 0xDEADBEEF)
    (fun _ => .ok (List.replicate 32 0)) (by decide) (by decide) (by decide)
    (by decide) (by decide) (by decide) (fun d => ⟨0x5A, rfl⟩)
    (fun d => ⟨0xDEADBEEF, rfl⟩)
    (fun d => ⟨List.replicate 32 0, rfl, by decide⟩)

end Idtp




